import Mathlib

/-!
# drand-client-rs: Beacon Verification Engine and Round-Time Mapper

A shallow embedding of the verification core of the `drand-client-rs` crate
(`src/verify.rs` and `src/lib.rs`), together with theorems settling the
specification's claims about it.

Modelling conventions:
* Byte strings (`Vec<u8>`) are `List Nat`, each entry a byte value.
* `u64` arithmetic wraps modulo `2^64` (release-profile Rust semantics);
  division by zero panics in every profile and is modelled by an explicit
  `panicked` outcome.
* The external curve library (`energon`) supplies point deserialization,
  curve-membership checks and the pairing check; those primitives are
  modelled as an abstract record of operations (`SchemeOps`), exactly the
  shape of the Rust `Scheme` trait bound used by `verify`.  All control-flow
  theorems are proved for every possible instantiation of that record.
* `SHA-256` is called concretely by `verify_beacon` (via the `sha2` crate),
  so it is implemented here in full (FIPS 180-4).
-/

set_option maxRecDepth 100000

namespace DrandClient

/-! ## SHA-256 (FIPS 180-4), as invoked by `Sha256::digest` in `verify_beacon` -/

/-- Truncation to a 32-bit word. -/
def w32 (n : Nat) : Nat := n % 4294967296

/-- Right rotation of a 32-bit word by `n` bits. -/
def rotr (n x : Nat) : Nat := w32 ((x >>> n) ||| (x <<< (32 - n)))

/-- Bitwise complement of a 32-bit word. -/
def not32 (x : Nat) : Nat := x ^^^ 4294967295

/-- SHA-256 choice function. -/
def ch (x y z : Nat) : Nat := (x &&& y) ^^^ (not32 x &&& z)

/-- SHA-256 majority function. -/
def maj (x y z : Nat) : Nat := (x &&& y) ^^^ (x &&& z) ^^^ (y &&& z)

/-- SHA-256 big sigma 0. -/
def bsig0 (x : Nat) : Nat := rotr 2 x ^^^ rotr 13 x ^^^ rotr 22 x

/-- SHA-256 big sigma 1. -/
def bsig1 (x : Nat) : Nat := rotr 6 x ^^^ rotr 11 x ^^^ rotr 25 x

/-- SHA-256 small sigma 0. -/
def ssig0 (x : Nat) : Nat := rotr 7 x ^^^ rotr 18 x ^^^ (x >>> 3)

/-- SHA-256 small sigma 1. -/
def ssig1 (x : Nat) : Nat := rotr 17 x ^^^ rotr 19 x ^^^ (x >>> 10)

/-- The 64 SHA-256 round constants of FIPS 180-4 (the first 32 bits of the
fractional parts of the cube roots of the first 64 primes), in decimal. -/
def sha256K : List Nat :=
  [1116352408, 1899447441, 3049323471, 3921009573, 961987163, 1508970993,
   2453635748, 2870763221, 3624381080, 310598401, 607225278, 1426881987,
   1925078388, 2162078206, 2614888103, 3248222580, 3835390401, 4022224774,
   264347078, 604807628, 770255983, 1249150122, 1555081692, 1996064986,
   2554220882, 2821834349, 2952996808, 3210313671, 3336571891, 3584528711,
   113926993, 338241895, 666307205, 773529912, 1294757372, 1396182291,
   1695183700, 1986661051, 2177026350, 2456956037, 2730485921, 2820302411,
   3259730800, 3345764771, 3516065817, 3600352804, 4094571909, 275423344,
   430227734, 506948616, 659060556, 883997877, 958139571, 1322822218,
   1537002063, 1747873779, 1955562222, 2024104815, 2227730452, 2361852424,
   2428436474, 2756734187, 3204031479, 3329325298]

/-- Big-endian byte encoding of `n` in exactly `k` bytes. -/
def beBytes : Nat → Nat → List Nat
  | 0, _ => []
  | k + 1, n => beBytes k (n / 256) ++ [n % 256]

/-- FIPS 180-4 padding: append `0x80`, zero bytes to 56 mod 64, then the
bit length as 8 big-endian bytes. -/
def padMessage (m : List Nat) : List Nat :=
  m ++ [0x80] ++ List.replicate ((120 - (m.length + 1) % 64) % 64) 0 ++ beBytes 8 (m.length * 8)

/-- Split a byte list into 64-byte blocks (fuel-indexed; the fuel
`l.length` always suffices because each step consumes at least one byte). -/
def toBlocksAux : Nat → List Nat → List (List Nat)
  | 0, _ => []
  | _, [] => []
  | fuel + 1, l => l.take 64 :: toBlocksAux fuel (l.drop 64)

/-- Split a byte list into 64-byte blocks. -/
def toBlocks (l : List Nat) : List (List Nat) := toBlocksAux l.length l

/-- Interpret consecutive 4-byte groups as big-endian 32-bit words. -/
def beWords : List Nat → List Nat
  | b0 :: b1 :: b2 :: b3 :: rest => (((b0 * 256 + b1) * 256 + b2) * 256 + b3) :: beWords rest
  | _ => []

/-- Next message-schedule word, given the schedule so far in reverse order. -/
def scheduleNext (r : List Nat) : Nat :=
  w32 (ssig1 (r.getD 1 0) + r.getD 6 0 + ssig0 (r.getD 14 0) + r.getD 15 0)

/-- Extend the reversed schedule by `k` words. -/
def scheduleRev : Nat → List Nat → List Nat
  | 0, r => r
  | k + 1, r => scheduleRev k (scheduleNext r :: r)

/-- The 64-word SHA-256 message schedule of one block's 16 words. -/
def messageSchedule (w16 : List Nat) : List Nat :=
  (scheduleRev 48 w16.reverse).reverse

/-- The eight 32-bit working variables of the compression function. -/
structure Sha256State where
  a : Nat
  b : Nat
  c : Nat
  d : Nat
  e : Nat
  f : Nat
  g : Nat
  hh : Nat
  deriving DecidableEq, Repr

/-- One SHA-256 compression round with round constant `k` and schedule word `w`. -/
def sha256Round (s : Sha256State) (kw : Nat × Nat) : Sha256State :=
  let t1 := w32 (s.hh + bsig1 s.e + ch s.e s.f s.g + kw.1 + kw.2)
  let t2 := w32 (bsig0 s.a + maj s.a s.b s.c)
  ⟨w32 (t1 + t2), s.a, s.b, s.c, w32 (s.d + t1), s.e, s.f, s.g⟩

/-- Compress one 64-byte block into the running hash state. -/
def compressBlock (hs : Sha256State) (block : List Nat) : Sha256State :=
  let ws := messageSchedule (beWords block)
  let s := (sha256K.zip ws).foldl sha256Round hs
  ⟨w32 (hs.a + s.a), w32 (hs.b + s.b), w32 (hs.c + s.c), w32 (hs.d + s.d),
   w32 (hs.e + s.e), w32 (hs.f + s.f), w32 (hs.g + s.g), w32 (hs.hh + s.hh)⟩

/-- The SHA-256 initial hash value of FIPS 180-4 (the first 32 bits of the
fractional parts of the square roots of the first 8 primes), in decimal. -/
def initHash : Sha256State :=
  ⟨1779033703, 3144134277, 1013904242, 2773480762,
   1359893119, 2600822924, 528734635, 1541459225⟩

/-- SHA-256 of a byte string, as a 32-byte string. -/
def sha256 (m : List Nat) : List Nat :=
  let s := (toBlocks (padMessage m)).foldl compressBlock initHash
  beBytes 4 s.a ++ beBytes 4 s.b ++ beBytes 4 s.c ++ beBytes 4 s.d ++
  beBytes 4 s.e ++ beBytes 4 s.f ++ beBytes 4 s.g ++ beBytes 4 s.hh

/-- Sanity check against the FIPS 180-4 test vector: SHA-256 of the empty string. -/
theorem sha256_empty_string :
    sha256 [] =
      [227, 176, 196, 66, 152, 252, 28, 20, 154, 251, 244, 200, 153, 111, 185, 36,
       39, 174, 65, 228, 100, 155, 147, 76, 164, 149, 153, 27, 120, 82, 184, 85] := by
  decide

/-! ## Data model (`src/verify.rs`, `src/chain_info.rs`) -/

/-- `Beacon` from `src/verify.rs`: one round's randomness output together
with its threshold signature (byte fields already hex-decoded by serde). -/
structure Beacon where
  round_number : Nat
  randomness : List Nat
  signature : List Nat
  previous_signature : List Nat
  deriving DecidableEq, Repr

/-- `SchemeID` from `src/verify.rs`. -/
inductive SchemeID
  | PedersenBlsChained
  | PedersenBlsUnchained
  | UnchainedOnG1RFC9380
  deriving DecidableEq, Repr

/-- `VerificationError` from `src/verify.rs` (all six variants, including
the never-constructed `EmptyMessage`). -/
inductive VerificationError
  | ChainedBeaconNeedsPreviousSignature
  | InvalidSignatureLength
  | InvalidPublicKey
  | EmptyMessage
  | SignatureFailedVerification
  | InvalidRandomness
  deriving DecidableEq, Repr

/-- `ChainInfoMetadata` from `src/chain_info.rs`. -/
structure ChainInfoMetadata where
  beacon_id : String

/-- `ChainInfo` from `src/chain_info.rs`.  `genesis_time` is a `u64`,
`period_seconds` a `usize`; both are modelled as `Nat`. -/
structure ChainInfo where
  scheme_id : SchemeID
  public_key : List Nat
  chain_hash : List Nat
  group_hash : List Nat
  genesis_time : Nat
  period_seconds : Nat
  metadata : ChainInfoMetadata

/-- The string match inside `SchemeID::deserialize` (`src/verify.rs`):
exactly three strings are accepted, anything else produces serde's
`unknown_variant` error, modelled as `none`. -/
def schemeIDFromString (s : String) : Option SchemeID :=
  if s = "pedersen-bls-chained" then some SchemeID.PedersenBlsChained
  else if s = "pedersen-bls-unchained" then some SchemeID.PedersenBlsUnchained
  else if s = "bls-unchained-g1-rfc9380" then some SchemeID.UnchainedOnG1RFC9380
  else none

/-! ## The external curve library

The Rust `verify<S: Scheme>` is generic over the `energon` `Scheme` trait,
which supplies the curve groups, point (de)serialization, membership and
identity checks, the beacon digest and the pairing check.  That crate is an
external collaborator (the spec's "pairing-curve primitive library"), so its
operations are abstract here: one record per scheme, with the exact shape of
the trait bound used by `verify`.  Every control-flow theorem below is
proved for all instantiations of these records. -/

/-- The operations `verify<S: Scheme>` consumes from its type parameter:
`S::Beacon::is_chained()`, `Affine::deserialize` for the signature group,
`<S::Key as Group>::Affine::deserialize`, `is_on_curve`, `is_identity`,
`S::Beacon::digest` and `S::bls_verify` (failure modelled as `none`/`false`). -/
structure SchemeOps where
  SigPoint : Type
  KeyPoint : Type
  is_chained : Bool
  deserializeSignature : List Nat → Option SigPoint
  deserializeKey : List Nat → Option KeyPoint
  is_on_curve : KeyPoint → Bool
  is_identity : KeyPoint → Bool
  digest : List Nat → Nat → List Nat
  bls_verify : KeyPoint → SigPoint → List Nat → Bool

/-- The three `energon` scheme instantiations used by `verify_beacon`:
`DefaultScheme`, `UnchainedScheme` and `SchortSigScheme`. -/
structure CryptoEnv where
  defaultScheme : SchemeOps
  unchainedScheme : SchemeOps
  schortSigScheme : SchemeOps

/-- Which `SchemeOps` the `match scheme_id` in `verify_beacon` selects. -/
def schemeFor (env : CryptoEnv) : SchemeID → SchemeOps
  | SchemeID.PedersenBlsChained => env.defaultScheme
  | SchemeID.PedersenBlsUnchained => env.unchainedScheme
  | SchemeID.UnchainedOnG1RFC9380 => env.schortSigScheme

/-! ## The verification engine (`src/verify.rs`) -/

/-- `verify<S: Scheme>` from `src/verify.rs`, line for line: empty-signature
check, chained previous-signature check, signature-point deserialization
(failure → `SignatureFailedVerification`), public-key deserialization
(failure → `InvalidPublicKey`), curve/identity check, digest and pairing
check. -/
def verify (S : SchemeOps) (public_key : List Nat) (beacon : Beacon) :
    Except VerificationError Unit :=
  if beacon.signature.isEmpty then Except.error VerificationError.InvalidSignatureLength
  else if S.is_chained && beacon.previous_signature.isEmpty then
    Except.error VerificationError.ChainedBeaconNeedsPreviousSignature
  else
    match S.deserializeSignature beacon.signature with
    | none => Except.error VerificationError.SignatureFailedVerification
    | some signature_point =>
      match S.deserializeKey public_key with
      | none => Except.error VerificationError.InvalidPublicKey
      | some pubkey_point =>
        if !S.is_on_curve pubkey_point || S.is_identity pubkey_point then
          Except.error VerificationError.InvalidPublicKey
        else
          let message := S.digest beacon.previous_signature beacon.round_number
          if !S.bls_verify pubkey_point signature_point message then
            Except.error VerificationError.SignatureFailedVerification
          else Except.ok ()

/-- `verify_beacon` from `src/verify.rs`: the SHA-256 randomness
self-consistency check, then dispatch on `scheme_id`. -/
def verify_beacon (env : CryptoEnv) (scheme_id : SchemeID) (public_key : List Nat)
    (beacon : Beacon) : Except VerificationError Unit :=
  if sha256 beacon.signature ≠ beacon.randomness then
    Except.error VerificationError.InvalidRandomness
  else
    match scheme_id with
    | SchemeID.PedersenBlsChained => verify env.defaultScheme public_key beacon
    | SchemeID.PedersenBlsUnchained => verify env.unchainedScheme public_key beacon
    | SchemeID.UnchainedOnG1RFC9380 => verify env.schortSigScheme public_key beacon

/-! ## The round-time mapper and client checks (`src/lib.rs`) -/

/-- `DrandClientError` from `src/lib.rs`. -/
inductive DrandClientError
  | InvalidRound
  | InvalidBeacon
  | FailedVerification
  | InvalidChainInfo
  | NotResponding
  | RoundBeforeGenesis
  | UnexpectedError
  deriving DecidableEq, Repr

/-- Outcome of `round_for_time`: a Rust panic, a returned error, or a round
number. -/
inductive RoundResult
  | panicked
  | failed (e : DrandClientError)
  | round (r : Nat)
  deriving DecidableEq, Repr

/-- `round_for_time` from `src/lib.rs`.  The time is in Unix seconds (an
`Int`: `duration_since(UNIX_EPOCH)` fails for pre-epoch instants, which the
code maps to `UnexpectedError`).  The division `(epoch_seconds -
genesis_time) / period_seconds` is `u64` division: it panics when
`period_seconds = 0` (modelled by `panicked`), and the subsequent `+ 1`
wraps modulo `2^64` (release-profile semantics). -/
def round_for_time (chain_info : ChainInfo) (time : Int) : RoundResult :=
  if time < 0 then RoundResult.failed DrandClientError.UnexpectedError
  else if time.toNat ≤ chain_info.genesis_time then
    RoundResult.failed DrandClientError.RoundBeforeGenesis
  else if chain_info.period_seconds = 0 then RoundResult.panicked
  else
    RoundResult.round
      (((time.toNat - chain_info.genesis_time) / chain_info.period_seconds + 1) % 2 ^ 64)

/-- Wrapping `u64` subtraction, for arguments below `2^64`. -/
def u64_sub (x y : Nat) : Nat := (x + 2 ^ 64 - y) % 2 ^ 64

/-- Outcome of a client call returning a beacon. -/
inductive ClientResult
  | panicked
  | failed (e : DrandClientError)
  | beacon (b : Beacon)
  deriving DecidableEq, Repr

/-- The recency logic of `DrandClient::latest_randomness` from `src/lib.rs`:
compute the expected round for the current time, then reject the fetched
beacon as `InvalidBeacon` when `beacon.round_number < expected_round - 1`
(`u64` subtraction).  The transport fetch and the `verify_beacon` call in
`fetch_beacon_tag` — which the claims about this function assume succeed —
are abstracted into the already-deserialized `fetched` argument. -/
def latest_randomness (chain_info : ChainInfo) (now : Int) (fetched : Beacon) : ClientResult :=
  match round_for_time chain_info now with
  | RoundResult.panicked => ClientResult.panicked
  | RoundResult.failed e => ClientResult.failed e
  | RoundResult.round expected_round =>
    if fetched.round_number < u64_sub expected_round 1 then
      ClientResult.failed DrandClientError.InvalidBeacon
    else ClientResult.beacon fetched

instance {ε α : Type} [DecidableEq ε] [DecidableEq α] : DecidableEq (Except ε α) := fun a b =>
  match a, b with
  | Except.ok x, Except.ok y =>
    match decEq x y with
    | isTrue hxy => isTrue (by rw [hxy])
    | isFalse hxy => isFalse (fun hc => hxy (by injection hc))
  | Except.error x, Except.error y =>
    match decEq x y with
    | isTrue hxy => isTrue (by rw [hxy])
    | isFalse hxy => isFalse (fun hc => hxy (by injection hc))
  | Except.ok _, Except.error _ => isFalse (fun hc => Except.noConfusion hc)
  | Except.error _, Except.ok _ => isFalse (fun hc => Except.noConfusion hc)

/-! ## Helper lemmas about `verify` and `verify_beacon` -/

/-- When the SHA-256 of the signature differs from the claimed randomness,
`verify_beacon` stops at `InvalidRandomness`. -/
theorem verify_beacon_randomness_mismatch (env : CryptoEnv) (scheme_id : SchemeID)
    (public_key : List Nat) (beacon : Beacon)
    (hrand : sha256 beacon.signature ≠ beacon.randomness) :
    verify_beacon env scheme_id public_key beacon =
      Except.error VerificationError.InvalidRandomness := by
  unfold verify_beacon
  rw [if_pos hrand]

/-- When the randomness self-consistency check passes, `verify_beacon` is
exactly `verify` applied to the scheme selected by the dispatch. -/
theorem verify_beacon_dispatch (env : CryptoEnv) (scheme_id : SchemeID)
    (public_key : List Nat) (beacon : Beacon)
    (hrand : sha256 beacon.signature = beacon.randomness) :
    verify_beacon env scheme_id public_key beacon =
      verify (schemeFor env scheme_id) public_key beacon := by
  unfold verify_beacon
  rw [if_neg (not_not_intro hrand)]
  cases scheme_id <;> rfl

/-- `verify` on an empty signature returns `InvalidSignatureLength`. -/
theorem verify_empty_signature (S : SchemeOps) (public_key : List Nat) (beacon : Beacon)
    (hsig : beacon.signature = []) :
    verify S public_key beacon = Except.error VerificationError.InvalidSignatureLength := by
  unfold verify
  rw [if_pos (by rw [hsig]; rfl)]

/-- `verify` under a chained scheme with a non-empty signature and an empty
previous signature returns `ChainedBeaconNeedsPreviousSignature`. -/
theorem verify_chained_needs_prev (S : SchemeOps) (public_key : List Nat) (beacon : Beacon)
    (hsig : beacon.signature ≠ []) (hch : S.is_chained = true)
    (hprev : beacon.previous_signature = []) :
    verify S public_key beacon =
      Except.error VerificationError.ChainedBeaconNeedsPreviousSignature := by
  obtain ⟨x, xs, hs⟩ : ∃ x xs, beacon.signature = x :: xs := by
    cases hx : beacon.signature with
    | nil => exact absurd hx hsig
    | cons x xs => exact ⟨x, xs, rfl⟩
  unfold verify
  rw [hs, hch, hprev]
  rfl

/-- `verify` returns `InvalidPublicKey` whenever the structural checks pass,
the signature bytes deserialize, and the public key either fails to
deserialize or deserializes to an off-curve or identity point. -/
theorem verify_invalid_public_key (S : SchemeOps) (public_key : List Nat) (beacon : Beacon)
    (hsig : beacon.signature ≠ [])
    (hprev : S.is_chained = true → beacon.previous_signature ≠ [])
    (sp : S.SigPoint) (hdeser : S.deserializeSignature beacon.signature = some sp)
    (hkey : ∀ kp, S.deserializeKey public_key = some kp →
      S.is_on_curve kp = false ∨ S.is_identity kp = true) :
    verify S public_key beacon = Except.error VerificationError.InvalidPublicKey := by
  have hsigE : beacon.signature.isEmpty = false := by
    cases hx : beacon.signature with
    | nil => exact absurd hx hsig
    | cons x xs => rfl
  have hchainE : (S.is_chained && beacon.previous_signature.isEmpty) = false := by
    cases hc : S.is_chained with
    | false => rfl
    | true =>
      cases hx : beacon.previous_signature with
      | nil => exact absurd hx (hprev hc)
      | cons x xs => rfl
  unfold verify
  rw [hsigE, hchainE, hdeser]
  simp only [Bool.false_eq_true, if_false]
  cases hk : S.deserializeKey public_key with
  | none => rfl
  | some kp =>
    rcases hkey kp hk with hoc | hid
    · simp [hoc]
    · simp [hid]

/-- `verify` only ever produces `Ok(())` or one of four specific errors. -/
theorem verify_result_cases (S : SchemeOps) (public_key : List Nat) (beacon : Beacon) :
    verify S public_key beacon = Except.ok () ∨
    verify S public_key beacon = Except.error VerificationError.InvalidSignatureLength ∨
    verify S public_key beacon =
      Except.error VerificationError.ChainedBeaconNeedsPreviousSignature ∨
    verify S public_key beacon = Except.error VerificationError.InvalidPublicKey ∨
    verify S public_key beacon = Except.error VerificationError.SignatureFailedVerification := by
  unfold verify
  split
  · tauto
  split
  · tauto
  split
  · tauto
  split
  · tauto
  split
  · tauto
  dsimp only
  split
  · tauto
  · tauto

/-! ## Concrete instantiations of the curve primitives, for witnesses

The control-flow theorems hold for every instantiation of `SchemeOps`;
these concrete records let the witnesses evaluate `verify_beacon` on
closed inputs. -/

/-- Primitives that accept everything: every byte string deserializes, every
key is on-curve and not the identity, the pairing check always passes. -/
def acceptingScheme : SchemeOps where
  SigPoint := Unit
  KeyPoint := Unit
  is_chained := true
  deserializeSignature := fun _ => some ()
  deserializeKey := fun _ => some ()
  is_on_curve := fun _ => true
  is_identity := fun _ => false
  digest := fun _ _ => []
  bls_verify := fun _ _ _ => true

/-- A witness environment: the chained scheme chained, the two unchained
schemes not. -/
def wEnv : CryptoEnv :=
  ⟨acceptingScheme, { acceptingScheme with is_chained := false },
   { acceptingScheme with is_chained := false }⟩

/-- Primitives that, like the real library, reject byte strings that are not
valid encodings of group points: only 96-byte signatures and 48-byte keys
deserialize here. -/
def rejectingScheme : SchemeOps where
  SigPoint := Unit
  KeyPoint := Unit
  is_chained := false
  deserializeSignature := fun l => if l.length = 96 then some () else none
  deserializeKey := fun l => if l.length = 48 then some () else none
  is_on_curve := fun _ => true
  is_identity := fun _ => false
  digest := fun _ _ => []
  bls_verify := fun _ _ _ => true

/-- Environment for the C2 counterexample. -/
def cexEnv : CryptoEnv := ⟨rejectingScheme, rejectingScheme, rejectingScheme⟩

/-- A beacon whose randomness is consistent with its (one-byte, hence not
point-deserializable) signature. -/
def cexBeacon : Beacon := ⟨1, sha256 [1], [1], []⟩

/-! ## Claims about the verification engine -/

/-- C1: for every scheme id, every public key and every beacon whose
`randomness` is not byte-for-byte SHA-256 of its `signature`,
`verify_beacon` returns exactly `InvalidRandomness` — for every
instantiation of the curve primitives and all other beacon fields, i.e. the
check precedes scheme dispatch and every structural and pairing check. -/
theorem C1_invalid_randomness_first (env : CryptoEnv) (scheme_id : SchemeID)
    (public_key : List Nat) (beacon : Beacon)
    (hrand : sha256 beacon.signature ≠ beacon.randomness) :
    verify_beacon env scheme_id public_key beacon =
      Except.error VerificationError.InvalidRandomness :=
  verify_beacon_randomness_mismatch env scheme_id public_key beacon hrand

/-- Witness for C1: a beacon whose randomness field is empty, hence not the
32-byte SHA-256 of its signature, is rejected as `InvalidRandomness`. -/
theorem C1_invalid_randomness_first_witness :
    sha256 [1] ≠ ([] : List Nat) ∧
    verify_beacon wEnv SchemeID.PedersenBlsChained [] ⟨1, [], [1], []⟩ =
      Except.error VerificationError.InvalidRandomness :=
  ⟨by decide, C1_invalid_randomness_first wEnv SchemeID.PedersenBlsChained [] ⟨1, [], [1], []⟩
    (by decide)⟩

/-- Counterexample to C2 as stated: a beacon that passes the randomness
self-consistency check, has a non-empty signature, and runs under an
unchained scheme whose public-key deserialization fails on the given key —
yet the verdict is `SignatureFailedVerification`, not `InvalidPublicKey`,
because the signature bytes fail point deserialization first (the claim
omits "the signature deserializes" from its preconditions). -/
theorem C2_counterexample :
    sha256 cexBeacon.signature = cexBeacon.randomness ∧
    cexBeacon.signature ≠ [] ∧
    (schemeFor cexEnv SchemeID.PedersenBlsUnchained).is_chained = false ∧
    (schemeFor cexEnv SchemeID.PedersenBlsUnchained).deserializeKey [] = none ∧
    verify_beacon cexEnv SchemeID.PedersenBlsUnchained [] cexBeacon ≠
      Except.error VerificationError.InvalidPublicKey ∧
    verify_beacon cexEnv SchemeID.PedersenBlsUnchained [] cexBeacon =
      Except.error VerificationError.SignatureFailedVerification :=
  ⟨rfl, by decide, rfl, rfl, by decide, by decide⟩

/-- C2 (amended): for every scheme and every beacon that passes the
randomness check, has a non-empty signature, whose signature bytes
deserialize as a point in the scheme's signature group, and (for a chained
scheme) a non-empty previous signature: if the public key fails to
deserialize, or deserializes to an off-curve point, or to the identity,
then `verify_beacon` returns exactly `InvalidPublicKey`. -/
theorem C2_invalid_public_key (env : CryptoEnv) (scheme_id : SchemeID)
    (public_key : List Nat) (beacon : Beacon)
    (hrand : sha256 beacon.signature = beacon.randomness)
    (hsig : beacon.signature ≠ [])
    (hprev : (schemeFor env scheme_id).is_chained = true → beacon.previous_signature ≠ [])
    (sp : (schemeFor env scheme_id).SigPoint)
    (hdeser : (schemeFor env scheme_id).deserializeSignature beacon.signature = some sp)
    (hkey : ∀ kp, (schemeFor env scheme_id).deserializeKey public_key = some kp →
      (schemeFor env scheme_id).is_on_curve kp = false ∨
      (schemeFor env scheme_id).is_identity kp = true) :
    verify_beacon env scheme_id public_key beacon =
      Except.error VerificationError.InvalidPublicKey := by
  rw [verify_beacon_dispatch env scheme_id public_key beacon hrand]
  exact verify_invalid_public_key _ _ _ hsig hprev sp hdeser hkey

/-- Witness for the amended C2: under primitives for which the 96-byte
signature deserializes but the empty public key does not, the verdict is
`InvalidPublicKey`. -/
theorem C2_invalid_public_key_witness :
    verify_beacon cexEnv SchemeID.PedersenBlsUnchained []
      ⟨1, sha256 (List.replicate 96 0), List.replicate 96 0, []⟩ =
      Except.error VerificationError.InvalidPublicKey :=
  C2_invalid_public_key cexEnv SchemeID.PedersenBlsUnchained []
    ⟨1, sha256 (List.replicate 96 0), List.replicate 96 0, []⟩
    rfl (by decide) (fun hc => Bool.noConfusion hc) () rfl
    (fun kp hk => Option.noConfusion hk)

/-- C3: once the randomness check passes, the structural checks run in
order: an empty signature yields exactly `InvalidSignatureLength` (whatever
the scheme and the previous-signature field, in particular when a chained
scheme's previous signature is also empty), and otherwise a chained scheme
with an empty previous signature yields exactly
`ChainedBeaconNeedsPreviousSignature`. -/
theorem C3_structural_check_order (env : CryptoEnv) (scheme_id : SchemeID)
    (public_key : List Nat) (beacon : Beacon)
    (hrand : sha256 beacon.signature = beacon.randomness) :
    (beacon.signature = [] →
      verify_beacon env scheme_id public_key beacon =
        Except.error VerificationError.InvalidSignatureLength) ∧
    (beacon.signature ≠ [] → (schemeFor env scheme_id).is_chained = true →
      beacon.previous_signature = [] →
      verify_beacon env scheme_id public_key beacon =
        Except.error VerificationError.ChainedBeaconNeedsPreviousSignature) := by
  constructor
  · intro hsig
    rw [verify_beacon_dispatch env scheme_id public_key beacon hrand]
    exact verify_empty_signature _ _ _ hsig
  · intro hsig hch hprev
    rw [verify_beacon_dispatch env scheme_id public_key beacon hrand]
    exact verify_chained_needs_prev _ _ _ hsig hch hprev

/-- Witness for C3: under a chained scheme, the all-empty beacon (randomness
consistent with its empty signature) is rejected as
`InvalidSignatureLength` even though its previous signature is also empty;
and with a non-empty signature but empty previous signature the verdict is
`ChainedBeaconNeedsPreviousSignature`. -/
theorem C3_structural_check_order_witness :
    verify_beacon wEnv SchemeID.PedersenBlsChained [] ⟨1, sha256 [], [], []⟩ =
      Except.error VerificationError.InvalidSignatureLength ∧
    verify_beacon wEnv SchemeID.PedersenBlsChained [] ⟨1, sha256 [1], [1], []⟩ =
      Except.error VerificationError.ChainedBeaconNeedsPreviousSignature :=
  ⟨(C3_structural_check_order wEnv SchemeID.PedersenBlsChained [] ⟨1, sha256 [], [], []⟩
      rfl).1 rfl,
   (C3_structural_check_order wEnv SchemeID.PedersenBlsChained [] ⟨1, sha256 [1], [1], []⟩
      rfl).2 (by decide) rfl rfl⟩

/-- C10: for every scheme id, public key, beacon and instantiation of the
curve primitives, `verify_beacon` never returns `EmptyMessage`: its result
is `Ok(())` or exactly one of the five other error variants. -/
theorem C10_no_empty_message (env : CryptoEnv) (scheme_id : SchemeID)
    (public_key : List Nat) (beacon : Beacon) :
    verify_beacon env scheme_id public_key beacon ≠
      Except.error VerificationError.EmptyMessage ∧
    (verify_beacon env scheme_id public_key beacon = Except.ok () ∨
     verify_beacon env scheme_id public_key beacon =
       Except.error VerificationError.InvalidRandomness ∨
     verify_beacon env scheme_id public_key beacon =
       Except.error VerificationError.InvalidSignatureLength ∨
     verify_beacon env scheme_id public_key beacon =
       Except.error VerificationError.ChainedBeaconNeedsPreviousSignature ∨
     verify_beacon env scheme_id public_key beacon =
       Except.error VerificationError.InvalidPublicKey ∨
     verify_beacon env scheme_id public_key beacon =
       Except.error VerificationError.SignatureFailedVerification) := by
  have hcases : verify_beacon env scheme_id public_key beacon = Except.ok () ∨
      verify_beacon env scheme_id public_key beacon =
        Except.error VerificationError.InvalidRandomness ∨
      verify_beacon env scheme_id public_key beacon =
        Except.error VerificationError.InvalidSignatureLength ∨
      verify_beacon env scheme_id public_key beacon =
        Except.error VerificationError.ChainedBeaconNeedsPreviousSignature ∨
      verify_beacon env scheme_id public_key beacon =
        Except.error VerificationError.InvalidPublicKey ∨
      verify_beacon env scheme_id public_key beacon =
        Except.error VerificationError.SignatureFailedVerification := by
    by_cases hrand : sha256 beacon.signature = beacon.randomness
    · rw [verify_beacon_dispatch env scheme_id public_key beacon hrand]
      rcases verify_result_cases (schemeFor env scheme_id) public_key beacon with
        h | h | h | h | h <;> tauto
    · rw [verify_beacon_randomness_mismatch env scheme_id public_key beacon hrand]
      tauto
  refine ⟨?_, hcases⟩
  rcases hcases with h | h | h | h | h | h <;> rw [h] <;> simp

/-! ## Claims about the round-time mapper and the client recency check

`SystemTime` on the supported platforms stores seconds since the epoch in a
signed 64-bit field, so every representable non-negative time satisfies
`t < 2 ^ 63`; the theorems carry that representability bound as a
hypothesis.  Under it the quotient-plus-one never reaches `2 ^ 64`, so the
`u64` wrap in the model is invisible. -/

/-- Wrapping `u64` subtraction of 1 agrees with exact subtraction on
`[1, 2^64)`. -/
theorem u64_sub_one (e : Nat) (h1 : 1 ≤ e) (h2 : e < 2 ^ 64) : u64_sub e 1 = e - 1 := by
  unfold u64_sub
  have hsplit : e + 2 ^ 64 - 1 = (e - 1) + 2 ^ 64 := by omega
  rw [hsplit, Nat.add_mod_right, Nat.mod_eq_of_lt (by omega)]

/-- With a positive period and a representable time, `round_for_time` is the
genesis comparison followed by the exact (unwrapped) division formula. -/
theorem round_for_time_eq (c : ChainInfo) (t : Int)
    (hp : 0 < c.period_seconds) (h0 : 0 ≤ t) (ht : t < 2 ^ 63) :
    round_for_time c t =
      if t.toNat ≤ c.genesis_time then
        RoundResult.failed DrandClientError.RoundBeforeGenesis
      else RoundResult.round ((t.toNat - c.genesis_time) / c.period_seconds + 1) := by
  unfold round_for_time
  rw [if_neg (by omega)]
  by_cases hg : t.toNat ≤ c.genesis_time
  · rw [if_pos hg, if_pos hg]
  · rw [if_neg hg, if_neg hg, if_neg (by omega)]
    congr 1
    have h1 : (t.toNat - c.genesis_time) / c.period_seconds ≤ t.toNat - c.genesis_time :=
      Nat.div_le_self _ _
    apply Nat.mod_eq_of_lt
    omega

/-- A small chain schedule (genesis 100, period 30) used by witnesses. -/
def wChain : ChainInfo :=
  ⟨SchemeID.PedersenBlsChained, [], [], [], 100, 30, ⟨"default"⟩⟩

/-- A chain whose `period_seconds` is zero, the configuration C5 is about. -/
def zeroPeriodChain : ChainInfo :=
  ⟨SchemeID.PedersenBlsChained, [], [], [], 0, 0, ⟨"default"⟩⟩

/-- C4: with a positive period and a representable non-negative time,
`round_for_time` fails with `RoundBeforeGenesis` exactly when
`t ≤ genesis_time`, and otherwise returns
`(t - genesis_time) / period_seconds + 1` (so round 2 at exactly
`genesis_time + period_seconds`, and a failure at exactly `genesis_time`,
as the witness evaluates). -/
theorem C4_round_for_time_formula (c : ChainInfo) (t : Int)
    (hp : 0 < c.period_seconds) (h0 : 0 ≤ t) (ht : t < 2 ^ 63) :
    (round_for_time c t = RoundResult.failed DrandClientError.RoundBeforeGenesis ↔
      t.toNat ≤ c.genesis_time) ∧
    (c.genesis_time < t.toNat →
      round_for_time c t =
        RoundResult.round ((t.toNat - c.genesis_time) / c.period_seconds + 1)) := by
  rw [round_for_time_eq c t hp h0 ht]
  constructor
  · by_cases hg : t.toNat ≤ c.genesis_time
    · simp [hg]
    · simp [hg]
  · intro hg
    rw [if_neg (by omega)]

/-- Witness for C4: on the witness chain (genesis 100, period 30), time 100
(exactly genesis) fails with `RoundBeforeGenesis` and time 130 (exactly one
period after genesis) is round 2. -/
theorem C4_round_for_time_formula_witness :
    round_for_time wChain 100 = RoundResult.failed DrandClientError.RoundBeforeGenesis ∧
    round_for_time wChain 130 = RoundResult.round 2 := by
  constructor
  · exact (C4_round_for_time_formula wChain 100 (by decide) (by decide) (by decide)).1.mpr
      (by decide)
  · exact (C4_round_for_time_formula wChain 130 (by decide) (by decide) (by decide)).2
      (by decide)

/-- C5 (code bug): `round_for_time` does not reject `period_seconds = 0`;
one second after genesis it reaches the `u64` division with a zero divisor,
which panics in Rust, instead of returning a configuration error. -/
theorem C5_zero_period_panics :
    round_for_time zeroPeriodChain 1 = RoundResult.panicked := rfl

/-- C6: for a representable current time strictly after genesis (and a
positive period, so that `expected = round_for_time(chain_info, now)`
exists), the `latest_randomness` recency check accepts the fetched beacon
exactly when `round_number ≥ expected - 1` and rejects it as
`InvalidBeacon` exactly when `round_number < expected - 1`. -/
theorem C6_latest_recency (c : ChainInfo) (now : Int) (b : Beacon)
    (hp : 0 < c.period_seconds) (h0 : 0 ≤ now) (hn : now < 2 ^ 63)
    (hg : c.genesis_time < now.toNat) :
    ∃ expected, round_for_time c now = RoundResult.round expected ∧
      (latest_randomness c now b = ClientResult.beacon b ↔
        expected - 1 ≤ b.round_number) ∧
      (latest_randomness c now b = ClientResult.failed DrandClientError.InvalidBeacon ↔
        b.round_number < expected - 1) := by
  have hr := round_for_time_eq c now hp h0 hn
  rw [if_neg (by omega)] at hr
  have hq : (now.toNat - c.genesis_time) / c.period_seconds ≤ now.toNat - c.genesis_time :=
    Nat.div_le_self _ _
  generalize hgen : (now.toNat - c.genesis_time) / c.period_seconds = q at hr hq
  have hub : q + 1 < 2 ^ 64 := by omega
  have hsub : u64_sub (q + 1) 1 = q + 1 - 1 := u64_sub_one _ (by omega) hub
  have hlat : latest_randomness c now b =
      if b.round_number < q + 1 - 1 then
        ClientResult.failed DrandClientError.InvalidBeacon
      else ClientResult.beacon b := by
    unfold latest_randomness
    rw [hr]
    dsimp only
    rw [hsub]
  refine ⟨q + 1, hr, ?_, ?_⟩
  · rw [hlat]
    by_cases hlt : b.round_number < q + 1 - 1
    · rw [if_pos hlt]
      exact ⟨fun hc => ClientResult.noConfusion hc, fun hle => absurd hlt (by omega)⟩
    · rw [if_neg hlt]
      exact ⟨fun _ => by omega, fun _ => rfl⟩
  · rw [hlat]
    by_cases hlt : b.round_number < q + 1 - 1
    · rw [if_pos hlt]
      exact ⟨fun _ => hlt, fun _ => rfl⟩
    · rw [if_neg hlt]
      exact ⟨fun hc => ClientResult.noConfusion hc, fun hcon => absurd hcon hlt⟩

/-- Witness for C6: on the witness chain at time 190 the expected round is
4; a fetched beacon for round 3 (one round early) is accepted and returned,
a fetched beacon for round 2 is rejected as `InvalidBeacon`. -/
theorem C6_latest_recency_witness :
    latest_randomness wChain 190 ⟨3, [], [], []⟩ = ClientResult.beacon ⟨3, [], [], []⟩ ∧
    latest_randomness wChain 190 ⟨2, [], [], []⟩ =
      ClientResult.failed DrandClientError.InvalidBeacon := by
  constructor
  · obtain ⟨e, he, hacc, _⟩ := C6_latest_recency wChain 190 ⟨3, [], [], []⟩
      (by decide) (by decide) (by decide) (by decide)
    have he4 : e = 4 := by
      have hx : round_for_time wChain 190 = RoundResult.round 4 := by decide
      rw [hx] at he
      injection he with hi
      exact hi.symm
    subst he4
    exact hacc.mpr (by decide)
  · obtain ⟨e, he, _, hrej⟩ := C6_latest_recency wChain 190 ⟨2, [], [], []⟩
      (by decide) (by decide) (by decide) (by decide)
    have he4 : e = 4 := by
      have hx : round_for_time wChain 190 = RoundResult.round 4 := by decide
      rw [hx] at he
      injection he with hi
      exact hi.symm
    subst he4
    exact hrej.mpr (by decide)

/-- C9: whenever `round_for_time` succeeds for a representable time it
returns a round number at least 1, so the `u64` subtraction
`expected_round - 1` in `latest_randomness` does not underflow or wrap:
it equals the exact natural-number subtraction. -/
theorem C9_round_at_least_one (c : ChainInfo) (t : Int) (r : Nat)
    (ht : t < 2 ^ 63) (h : round_for_time c t = RoundResult.round r) :
    1 ≤ r ∧ u64_sub r 1 = r - 1 := by
  unfold round_for_time at h
  by_cases h0 : t < 0
  · rw [if_pos h0] at h
    exact RoundResult.noConfusion h
  rw [if_neg h0] at h
  by_cases hg : t.toNat ≤ c.genesis_time
  · rw [if_pos hg] at h
    exact RoundResult.noConfusion h
  rw [if_neg hg] at h
  by_cases hz : c.period_seconds = 0
  · rw [if_pos hz] at h
    exact RoundResult.noConfusion h
  rw [if_neg hz] at h
  injection h with hr
  have hq : (t.toNat - c.genesis_time) / c.period_seconds ≤ t.toNat - c.genesis_time :=
    Nat.div_le_self _ _
  generalize hgen : (t.toNat - c.genesis_time) / c.period_seconds = q at hr hq
  have hlt : q + 1 < 2 ^ 64 := by omega
  rw [Nat.mod_eq_of_lt hlt] at hr
  refine ⟨by omega, ?_⟩
  exact hr ▸ u64_sub_one (q + 1) (by omega) hlt

/-- Witness for C9: on the witness chain at time 190 the returned round is
4 ≥ 1 and the wrapped subtraction agrees with the exact one. -/
theorem C9_round_at_least_one_witness : 1 ≤ 4 ∧ u64_sub 4 1 = 4 - 1 :=
  C9_round_at_least_one wChain 190 4 (by decide) (by decide)

/-- C7: deserializing a scheme id string succeeds exactly on the three
known identifiers, each mapped to its own variant; every other string is
rejected. -/
theorem C7_scheme_id_deserialize (s : String) :
    (schemeIDFromString s = some SchemeID.PedersenBlsChained ↔
      s = "pedersen-bls-chained") ∧
    (schemeIDFromString s = some SchemeID.PedersenBlsUnchained ↔
      s = "pedersen-bls-unchained") ∧
    (schemeIDFromString s = some SchemeID.UnchainedOnG1RFC9380 ↔
      s = "bls-unchained-g1-rfc9380") ∧
    (schemeIDFromString s = none ↔
      s ≠ "pedersen-bls-chained" ∧ s ≠ "pedersen-bls-unchained" ∧
      s ≠ "bls-unchained-g1-rfc9380") := by
  by_cases h1 : s = "pedersen-bls-chained"
  · subst h1
    decide
  by_cases h2 : s = "pedersen-bls-unchained"
  · subst h2
    decide
  by_cases h3 : s = "bls-unchained-g1-rfc9380"
  · subst h3
    decide
  have hn : schemeIDFromString s = none := by
    unfold schemeIDFromString
    rw [if_neg h1, if_neg h2, if_neg h3]
  rw [hn]
  refine ⟨?_, ?_, ?_, ?_⟩ <;> simp [h1, h2, h3]

/-- C8: `verify_beacon` and `round_for_time` are deterministic: two
invocations on identical inputs return identical verdicts.  Both are
embedded as pure functions of their arguments — faithful to the source,
which takes its inputs by shared reference and touches no mutable state,
so no input is mutated by a call. -/
theorem C8_deterministic (env : CryptoEnv) (id1 id2 : SchemeID)
    (pk1 pk2 : List Nat) (b1 b2 : Beacon) (c1 c2 : ChainInfo) (t1 t2 : Int)
    (hid : id1 = id2) (hpk : pk1 = pk2) (hb : b1 = b2) (hc : c1 = c2) (ht : t1 = t2) :
    verify_beacon env id1 pk1 b1 = verify_beacon env id2 pk2 b2 ∧
    round_for_time c1 t1 = round_for_time c2 t2 := by
  subst hid
  subst hpk
  subst hb
  subst hc
  subst ht
  exact ⟨rfl, rfl⟩

/-- Witness for C8: two invocations on the same concrete scheme, key,
beacon, chain and time agree. -/
theorem C8_deterministic_witness :
    verify_beacon wEnv SchemeID.PedersenBlsChained [] ⟨1, [], [1], []⟩ =
      verify_beacon wEnv SchemeID.PedersenBlsChained [] ⟨1, [], [1], []⟩ ∧
    round_for_time wChain 130 = round_for_time wChain 130 :=
  C8_deterministic wEnv SchemeID.PedersenBlsChained SchemeID.PedersenBlsChained [] []
    ⟨1, [], [1], []⟩ ⟨1, [], [1], []⟩ wChain wChain 130 130 rfl rfl rfl rfl rfl

end DrandClient
